import Mathlib

/-!
Shallow embedding of the Ember heat scoring and decay engine
(HeatManager, MetricsManager, DecayManager) over real-number arithmetic.
Timestamps, durations, counters and scores are JavaScript numbers in the
source; they are modelled as real numbers.  The in-memory Map of records
is modelled as a function from identifiers to optional records.
-/

open Classical

/-- Per-file metrics, mirroring the HeatMetrics interface of types.ts. -/
structure HeatMetrics where
  accessCount : ℝ
  lastAccessed : ℝ
  successionCount : ℝ
  successionTimestamp : ℝ
  totalDuration : ℝ
  sessionStart : Option ℝ
  editCount : ℝ
  lastEdited : ℝ
  isFavorite : Bool
  favoriteBoost : ℝ


/-- Complete heat data for one file, mirroring the HeatData interface. -/
structure HeatData where
  path : String
  heatScore : ℝ
  metrics : HeatMetrics
  firstTracked : ℝ
  lastUpdated : ℝ


/-- Metric weights from settings (metricWeights). -/
structure MetricWeights where
  frequency : ℝ
  recency : ℝ
  succession : ℝ
  duration : ℝ
  edits : ℝ


/-- Heat increment settings (heatIncrements). -/
structure HeatIncrements where
  fileOpen : ℝ
  fileEdit : ℝ
  quickReturn : ℝ
  quickReturnWindow : ℝ


/-- The slice of EmberSettings used by the scoring and decay engine. -/
structure EmberSettings where
  decayRate : ℝ
  differentialDecay : Bool
  differentialMultiplier : ℝ
  pauseDecayForFavorites : Bool
  manualBoostValue : ℝ
  heatIncrements : HeatIncrements
  metricWeights : MetricWeights


/-- The heat map: file path to optional heat record (Map<string, HeatData>). -/
def Store : Type := String → Option HeatData

/-- Map.set: replace the record stored under a path. -/
noncomputable def Store.update (st : Store) (path : String) (r : HeatData) : Store :=
  fun p => if p = path then some r else st p

/-- JavaScript Math.log10. -/
noncomputable def log10 (x : ℝ) : ℝ :=
  Real.log x / Real.log 10

/-- HeatManager.normalizeHeat: clamp at 0, identity below 100, and a
logarithmic soft cap at and above 100. -/
noncomputable def normalizeHeat (heat : ℝ) : ℝ :=
  if heat ≤ 0 then 0
  else if 100 ≤ heat then min 100 (90 + log10 (heat - 100 + 1) * 10)
  else heat

/-- Fresh record produced by HeatManager.getOrCreateHeatData for an
untracked path. -/
def freshHeatData (path : String) (now : ℝ) : HeatData :=
  { path := path
    heatScore := 0
    metrics :=
      { accessCount := 0
        lastAccessed := now
        successionCount := 0
        successionTimestamp := 0
        totalDuration := 0
        sessionStart := none
        editCount := 0
        lastEdited := 0
        isFavorite := false
        favoriteBoost := 0 }
    firstTracked := now
    lastUpdated := now }

/-- HeatManager.getOrCreateHeatData: existing record, or a fresh one. -/
noncomputable def getOrCreate (st : Store) (path : String) (now : ℝ) : HeatData :=
  (st path).getD (freshHeatData path now)

/-- Score update performed by HeatManager.increaseHeat: add the amount,
add the favorite boost when favorited, then normalize. -/
noncomputable def increaseRecord (_s : EmberSettings) (now amount : ℝ) (r : HeatData) : HeatData :=
  let score1 := r.heatScore + amount
  let score2 := if r.metrics.isFavorite = true then score1 + r.metrics.favoriteBoost else score1
  { r with heatScore := normalizeHeat score2, lastUpdated := now }

/-- HeatManager.increaseHeat without a metrics callback, at store level. -/
noncomputable def increaseHeat (s : EmberSettings) (now : ℝ) (path : String) (amount : ℝ)
    (st : Store) : Store :=
  st.update path (increaseRecord s now amount (getOrCreate st path now))

/-- Decay arithmetic of HeatManager.decreaseHeat: percentage of the score,
multiplied again for high heat when differential decay is enabled. -/
noncomputable def decayedScore (s : EmberSettings) (score percentage : ℝ) : ℝ :=
  let decayAmount := score * percentage / 100
  let finalDecayAmount :=
    if s.differentialDecay = true ∧ score > 70
    then decayAmount * s.differentialMultiplier else decayAmount
  max 0 (score - finalDecayAmount)

/-- HeatManager.decreaseHeat on a tracked record: early return for paused
favorites, otherwise apply the decay and refresh lastUpdated. -/
noncomputable def decreaseRecord (s : EmberSettings) (now percentage : ℝ) (r : HeatData) : HeatData :=
  if r.metrics.isFavorite = true ∧ s.pauseDecayForFavorites = true then r
  else { r with heatScore := decayedScore s r.heatScore percentage, lastUpdated := now }

/-- HeatManager.decreaseHeat at store level: no-op for absent records. -/
noncomputable def decreaseHeat (s : EmberSettings) (now : ℝ) (path : String) (percentage : ℝ)
    (st : Store) : Store :=
  match st path with
  | none => st
  | some r => st.update path (decreaseRecord s now percentage r)

/-- Percentage passed to decreaseHeat by DecayManager.performDecay. -/
noncomputable def tickPercentage (s : EmberSettings) (score : ℝ) : ℝ :=
  if s.differentialDecay = true ∧ score > 70
  then s.decayRate * s.differentialMultiplier else s.decayRate

/-- One decay cycle of DecayManager.performDecay on a single record:
skip zero scores and paused favorites, then decrease. -/
noncomputable def tickRecord (s : EmberSettings) (now : ℝ) (r : HeatData) : HeatData :=
  if r.heatScore ≤ 0 then r
  else if r.metrics.isFavorite = true ∧ s.pauseDecayForFavorites = true then r
  else decreaseRecord s now (tickPercentage s r.heatScore) r

/-- DecayManager.performDecay: one decay cycle over every tracked record. -/
noncomputable def performDecay (s : EmberSettings) (now : ℝ) (st : Store) : Store :=
  fun p => (st p).map (tickRecord s now)

/-- The catch-up loop of DecayManager.calculateMissedDecay: apply
performDecay once per missed cycle. -/
noncomputable def missedDecayLoop (s : EmberSettings) (now : ℝ) : ℕ → Store → Store
  | 0, st => st
  | (k + 1), st => missedDecayLoop s now k (performDecay s now st)

/-- Per-path heat scores of a store. -/
noncomputable def storeScores (st : Store) : String → Option ℝ :=
  fun p => (st p).map HeatData.heatScore

/-- Per-path heat score and favorite flag of a store, the data one decay
cycle depends on. -/
noncomputable def storeSF (st : Store) : String → Option (ℝ × Bool) :=
  fun p => (st p).map (fun r => (r.heatScore, r.metrics.isFavorite))

/-- Pure score transformation of one decay cycle. -/
noncomputable def tickScore (s : EmberSettings) (fav : Bool) (score : ℝ) : ℝ :=
  if score ≤ 0 then score
  else if fav = true ∧ s.pauseDecayForFavorites = true then score
  else decayedScore s score (tickPercentage s score)

/-- HeatManager.setFavorite on a record: set the flag and the boost, and
when favoriting immediately add the manual boost to the score. -/
noncomputable def setFavoriteRecord (s : EmberSettings) (now : ℝ) (fav : Bool) (r : HeatData) :
    HeatData :=
  let m := { r.metrics with
    isFavorite := fav
    favoriteBoost := if fav then s.manualBoostValue else 0 }
  let score := if fav then normalizeHeat (r.heatScore + s.manualBoostValue) else r.heatScore
  { r with metrics := m, heatScore := score, lastUpdated := now }

/-- HeatManager.setFavorite at store level (get-or-create, then update). -/
noncomputable def setFavorite (s : EmberSettings) (now : ℝ) (path : String) (fav : Bool)
    (st : Store) : Store :=
  st.update path (setFavoriteRecord s now fav (getOrCreate st path now))

/-- HeatManager.resetFileHeat: zero the score and the activity counters of
an existing record, keep the favorite flag, clear the boost only for
non-favorites, refresh lastUpdated; no-op for absent paths. -/
noncomputable def resetFileHeat (now : ℝ) (path : String) (st : Store) : Store :=
  match st path with
  | none => st
  | some r =>
    let m := { r.metrics with
      accessCount := 0
      editCount := 0
      totalDuration := 0
      successionCount := 0
      favoriteBoost := if r.metrics.isFavorite then r.metrics.favoriteBoost else 0 }
    st.update path { r with heatScore := 0, metrics := m, lastUpdated := now }

/-- Tracker state of MetricsManager: the shared store plus the
tracker-local last accessed file. -/
structure TrackerState where
  store : Store
  lastAccessedFile : Option String

/-- Record transformation of MetricsManager.onFileAccess: the metrics
callback runs inside increaseHeat, and the quick-return branch grants its
bonus via a nested increaseHeat on the same record before the outer call
adds the fileOpen increment. -/
noncomputable def onFileAccessRecord (s : EmberSettings) (lastFile : Option String)
    (path : String) (now : ℝ) (r : HeatData) : HeatData :=
  let m1 := { r.metrics with accessCount := r.metrics.accessCount + 1 }
  let timeSince := now - m1.lastAccessed
  if lastFile = some path ∧ timeSince < s.heatIncrements.quickReturnWindow then
    let m2 := { m1 with
      successionCount := m1.successionCount + 1
      successionTimestamp := now }
    let r2 := increaseRecord s now s.heatIncrements.quickReturn { r with metrics := m2 }
    let m3 := { r2.metrics with
      lastAccessed := now
      sessionStart := if r2.metrics.sessionStart = none then some now
                      else r2.metrics.sessionStart }
    increaseRecord s now s.heatIncrements.fileOpen { r2 with metrics := m3 }
  else
    let m2 := if timeSince > s.heatIncrements.quickReturnWindow
              then { m1 with successionCount := 0 } else m1
    let m3 := { m2 with
      lastAccessed := now
      sessionStart := if m2.sessionStart = none then some now else m2.sessionStart }
    increaseRecord s now s.heatIncrements.fileOpen { r with metrics := m3 }

/-- MetricsManager.onFileAccess: update the accessed record and remember
the path for succession detection. -/
noncomputable def onFileAccess (s : EmberSettings) (now : ℝ) (path : String)
    (ts : TrackerState) : TrackerState :=
  { store := ts.store.update path
      (onFileAccessRecord s ts.lastAccessedFile path now (getOrCreate ts.store path now))
    lastAccessedFile := some path }

/-- MetricsManager.calculateFrequencyScore. -/
noncomputable def calculateFrequencyScore (m : HeatMetrics) (maxAccessCount : ℝ) : ℝ :=
  if maxAccessCount = 0 then 0 else m.accessCount / maxAccessCount * 100

/-- MetricsManager.calculateRecencyScore. -/
noncomputable def calculateRecencyScore (now : ℝ) (m : HeatMetrics) : ℝ :=
  let daysSinceAccess := (now - m.lastAccessed) / (1000 * 60 * 60 * 24)
  max 0 (min 100 (100 * Real.exp (-daysSinceAccess / 7)))

/-- MetricsManager.calculateSuccessionScore. -/
noncomputable def calculateSuccessionScore (m : HeatMetrics) : ℝ :=
  max 0 (min 100 (100 * (1 - Real.exp (-m.successionCount / 3))))

/-- MetricsManager.calculateDurationScore. -/
noncomputable def calculateDurationScore (m : HeatMetrics) (maxDuration : ℝ) : ℝ :=
  if maxDuration = 0 then 0
  else log10 (m.totalDuration + 1) / log10 (maxDuration + 1) * 100

/-- MetricsManager.calculateEditScore. -/
noncomputable def calculateEditScore (m : HeatMetrics) (maxEditCount : ℝ) : ℝ :=
  if maxEditCount = 0 then 0 else m.editCount / maxEditCount * 100

/-- Weighted clamped blend at the end of
MetricsManager.calculateCompositeScore. -/
noncomputable def compositeOf (w : MetricWeights) (f r su d e : ℝ) : ℝ :=
  max 0 (min 100
    ((f * w.frequency + r * w.recency + su * w.succession + d * w.duration + e * w.edits) / 100))

/-- MetricsManager.calculateCompositeScore for one record, given the
store-wide maxima used for normalization. -/
noncomputable def calculateCompositeScore (w : MetricWeights) (now : ℝ) (m : HeatMetrics)
    (maxAccessCount maxDuration maxEditCount : ℝ) : ℝ :=
  compositeOf w
    (calculateFrequencyScore m maxAccessCount)
    (calculateRecencyScore now m)
    (calculateSuccessionScore m)
    (calculateDurationScore m maxDuration)
    (calculateEditScore m maxEditCount)

/-- A concrete file path used in concrete instantiations. -/
def pA : String := "notes-a.md"

/-- A second concrete file path. -/
def pB : String := "notes-b.md"

/-- Concrete baseline metrics of a non-favorite record. -/
def mBase : HeatMetrics :=
  { accessCount := 1
    lastAccessed := 0
    successionCount := 2
    successionTimestamp := 0
    totalDuration := 0
    sessionStart := none
    editCount := 0
    lastEdited := 0
    isFavorite := false
    favoriteBoost := 0 }

/-- Concrete settings with differential decay enabled (rate 5, multiplier 2). -/
def sDiff : EmberSettings :=
  { decayRate := 5
    differentialDecay := true
    differentialMultiplier := 2
    pauseDecayForFavorites := false
    manualBoostValue := 50
    heatIncrements :=
      { fileOpen := 5, fileEdit := 3, quickReturn := 8, quickReturnWindow := 300000 }
    metricWeights :=
      { frequency := 30, recency := 40, succession := 10, duration := 15, edits := 5 } }

/-- Concrete record at heat 80. -/
def rEighty : HeatData :=
  { path := pA, heatScore := 80, metrics := mBase, firstTracked := 0, lastUpdated := 0 }

/-- Concrete one-record store holding rEighty at pA. -/
def stOne : Store :=
  fun p => if p = pA then some rEighty else none

/-- One decay cycle on the score-and-favorite view of a store. -/
noncomputable def decayStep (s : EmberSettings) (f : String → Option (ℝ × Bool)) :
    String → Option (ℝ × Bool) :=
  fun p => (f p).map (fun q => (tickScore s q.2 q.1, q.2))

/-- Concrete metrics of a favorited record. -/
def mFav : HeatMetrics :=
  { mBase with isFavorite := true, favoriteBoost := 3 }

/-- Concrete favorited record at heat 10. -/
def rFav : HeatData :=
  { path := pA, heatScore := 10, metrics := mFav, firstTracked := 0, lastUpdated := 0 }

/-- Concrete tracker state whose last accessed file is pA, holding rEighty. -/
def tsBase : TrackerState :=
  { store := stOne, lastAccessedFile := some pA }

/-- Concrete tracker state whose last accessed file is pA, holding rFav. -/
def tsFav : TrackerState :=
  { store := fun p => if p = pA then some rFav else none, lastAccessedFile := some pA }

/-- Concrete metrics of the composite-score worked example: 10 accesses,
last access 3.5 days before the evaluation instant, succession 3, total
duration 600000 ms, 2 edits. -/
def mC4 : HeatMetrics :=
  { accessCount := 10
    lastAccessed := 0
    successionCount := 3
    successionTimestamp := 0
    totalDuration := 600000
    sessionStart := none
    editCount := 2
    lastEdited := 0
    isFavorite := false
    favoriteBoost := 0 }

/-- Default metric weights (30, 40, 10, 15, 5). -/
def wDefault : MetricWeights :=
  { frequency := 30, recency := 40, succession := 10, duration := 15, edits := 5 }

/-- Evaluation instant of the worked example: 3.5 days in milliseconds. -/
def nowC4 : ℝ := 302400000

/-- Helper: the decay arithmetic never produces a negative score. -/
lemma decayedScore_nonneg (s : EmberSettings) (score p : ℝ) : 0 ≤ decayedScore s score p := by
  simp only [decayedScore]
  exact le_max_left 0 _

/-- Helper: with a zero percentage the decay arithmetic returns a
nonnegative score unchanged. -/
lemma decayedScore_zero (s : EmberSettings) (score : ℝ) (h0 : 0 ≤ score) :
    decayedScore s score 0 = score := by
  simp only [decayedScore, mul_zero, zero_div, zero_mul, sub_zero, ite_self]
  exact max_eq_right h0

/-- Helper: with nonnegative inputs the decay arithmetic never increases
the score. -/
lemma decayedScore_le (s : EmberSettings) (score p : ℝ) (h0 : 0 ≤ score) (hp : 0 ≤ p)
    (hm : 0 ≤ s.differentialMultiplier) : decayedScore s score p ≤ score := by
  have hb : 0 ≤ score * p / 100 := div_nonneg (mul_nonneg h0 hp) (by norm_num)
  simp only [decayedScore]
  split_ifs with h
  · exact max_le h0 (by nlinarith [mul_nonneg hb hm])
  · exact max_le h0 (by linarith)

/-- Helper: decreaseHeat keeps a nonnegative score nonnegative. -/
lemma decreaseRecord_heatScore_nonneg (s : EmberSettings) (now p : ℝ) (r : HeatData)
    (h0 : 0 ≤ r.heatScore) : 0 ≤ (decreaseRecord s now p r).heatScore := by
  rw [decreaseRecord]
  split_ifs with h
  · exact h0
  · exact decayedScore_nonneg s r.heatScore p

/-- Helper: decreaseHeat never increases a nonnegative score when the
percentage and the differential multiplier are nonnegative. -/
lemma decreaseRecord_heatScore_le (s : EmberSettings) (now p : ℝ) (r : HeatData)
    (h0 : 0 ≤ r.heatScore) (hp : 0 ≤ p) (hm : 0 ≤ s.differentialMultiplier) :
    (decreaseRecord s now p r).heatScore ≤ r.heatScore := by
  rw [decreaseRecord]
  split_ifs with h
  · exact le_refl _
  · exact decayedScore_le s r.heatScore p h0 hp hm

/-- Helper: bounds for a whole sequence of decrease calls. -/
lemma decreaseRecord_foldl_bounds (s : EmberSettings) (hm : 0 ≤ s.differentialMultiplier)
    (calls : List (ℝ × ℝ)) :
    ∀ r : HeatData, 0 ≤ r.heatScore → (∀ c ∈ calls, 0 ≤ c.2) →
      0 ≤ (calls.foldl (fun acc c => decreaseRecord s c.1 c.2 acc) r).heatScore ∧
      (calls.foldl (fun acc c => decreaseRecord s c.1 c.2 acc) r).heatScore ≤ r.heatScore := by
  induction calls with
  | nil => exact fun r h0 _ => ⟨h0, le_refl _⟩
  | cons c cs ih =>
    intro r h0 hc
    have hc2 : 0 ≤ c.2 := hc c (List.mem_cons_self c cs)
    have h1 : 0 ≤ (decreaseRecord s c.1 c.2 r).heatScore :=
      decreaseRecord_heatScore_nonneg s c.1 c.2 r h0
    have h2 : (decreaseRecord s c.1 c.2 r).heatScore ≤ r.heatScore :=
      decreaseRecord_heatScore_le s c.1 c.2 r h0 hc2 hm
    have h3 := ih (decreaseRecord s c.1 c.2 r) h1 (fun d hd => hc d (List.mem_cons_of_mem c hd))
    exact ⟨h3.1, le_trans h3.2 h2⟩

/-- C1 (amended): with heatScore 80, decayRate 5, differential decay on and
multiplier 2, the tick passes decayPercentage 10 to decrease, and decrease
multiplies the decay amount 8 by the multiplier a second time, so the
final decay amount is 16 and the new score is 64, not 72. -/
theorem tick_differential_example_amended (s : EmberSettings) (t : ℝ) (r : HeatData)
    (h80 : r.heatScore = 80) (hR : s.decayRate = 5) (hD : s.differentialDecay = true)
    (hM : s.differentialMultiplier = 2)
    (hF : ¬(r.metrics.isFavorite = true ∧ s.pauseDecayForFavorites = true)) :
    tickPercentage s r.heatScore = 10 ∧ (tickRecord s t r).heatScore = 64 := by
  have hp : tickPercentage s r.heatScore = 10 := by
    rw [tickPercentage, if_pos ⟨hD, by rw [h80]; norm_num⟩, hR, hM]; norm_num
  have hd : decayedScore s r.heatScore (tickPercentage s r.heatScore) = 64 := by
    rw [hp]
    simp only [decayedScore, h80, hM]
    rw [if_pos ⟨hD, by norm_num⟩]
    norm_num
  refine ⟨hp, ?_⟩
  rw [tickRecord, if_neg (by rw [h80]; norm_num), if_neg hF, decreaseRecord, if_neg hF]
  simpa using hd

/-- C1 witness: the amended statement instantiated at concrete data. -/
theorem tick_differential_example_amended_witness :
    tickPercentage sDiff rEighty.heatScore = 10 ∧ (tickRecord sDiff 3 rEighty).heatScore = 64 :=
  tick_differential_example_amended sDiff 3 rEighty rfl rfl rfl rfl
    (by simp [rEighty, mBase])

/-- C1 counterexample: on the concrete record at heat 80 with the example
settings, one tick yields 64, not the 72 the claim states. -/
theorem tick_differential_example_counterexample :
    (tickRecord sDiff 0 rEighty).heatScore = 64 ∧ (tickRecord sDiff 0 rEighty).heatScore ≠ 72 := by
  have h : (tickRecord sDiff 0 rEighty).heatScore = 64 := by
    simp only [tickRecord, decreaseRecord, decayedScore, tickPercentage, sDiff, rEighty, mBase]
    norm_num
  exact ⟨h, by rw [h]; norm_num⟩

/-- C6 (amended): decrease with percentage 0 leaves the score and the
metrics of a nonnegatively-scored record unchanged (only lastUpdated is
refreshed); any decrease keeps the score nonnegative; with nonnegative
percentage and differential multiplier a decrease never increases the
score, and the same bounds hold for any sequence of decrease calls. -/
theorem decrease_zero_noop_and_monotone (s : EmberSettings) (now p : ℝ) (r : HeatData) :
    (0 ≤ r.heatScore →
      (decreaseRecord s now 0 r).heatScore = r.heatScore ∧
      (decreaseRecord s now 0 r).metrics = r.metrics) ∧
    (0 ≤ r.heatScore → 0 ≤ (decreaseRecord s now p r).heatScore) ∧
    (0 ≤ r.heatScore → 0 ≤ p → 0 ≤ s.differentialMultiplier →
      (decreaseRecord s now p r).heatScore ≤ r.heatScore) ∧
    (0 ≤ r.heatScore → 0 ≤ s.differentialMultiplier →
      ∀ calls : List (ℝ × ℝ), (∀ c ∈ calls, 0 ≤ c.2) →
        0 ≤ (calls.foldl (fun acc c => decreaseRecord s c.1 c.2 acc) r).heatScore ∧
        (calls.foldl (fun acc c => decreaseRecord s c.1 c.2 acc) r).heatScore ≤ r.heatScore) := by
  refine ⟨fun h0 => ?_, fun h0 => decreaseRecord_heatScore_nonneg s now p r h0,
    fun h0 hp hm => decreaseRecord_heatScore_le s now p r h0 hp hm,
    fun h0 hm calls hc => decreaseRecord_foldl_bounds s hm calls r h0 hc⟩
  rw [decreaseRecord]
  split_ifs with h
  · exact ⟨rfl, rfl⟩
  · exact ⟨by simpa using decayedScore_zero s r.heatScore h0, rfl⟩

/-- C6 witness: the amended statement instantiated at concrete data. -/
theorem decrease_zero_noop_and_monotone_witness :
    ((decreaseRecord sDiff 1 0 rEighty).heatScore = rEighty.heatScore ∧
      (decreaseRecord sDiff 1 0 rEighty).metrics = rEighty.metrics) ∧
    (0 ≤ (decreaseRecord sDiff 1 5 rEighty).heatScore) ∧
    ((decreaseRecord sDiff 1 5 rEighty).heatScore ≤ rEighty.heatScore) ∧
    (0 ≤ (([((1 : ℝ), (5 : ℝ))]).foldl
        (fun acc c => decreaseRecord sDiff c.1 c.2 acc) rEighty).heatScore ∧
      (([((1 : ℝ), (5 : ℝ))]).foldl
        (fun acc c => decreaseRecord sDiff c.1 c.2 acc) rEighty).heatScore ≤
        rEighty.heatScore) := by
  have h := decrease_zero_noop_and_monotone sDiff 1 5 rEighty
  have h0 : (0 : ℝ) ≤ rEighty.heatScore := by norm_num [rEighty]
  have hm : (0 : ℝ) ≤ sDiff.differentialMultiplier := by norm_num [sDiff]
  exact ⟨h.1 h0, h.2.1 h0, h.2.2.1 h0 (by norm_num) hm,
    h.2.2.2 h0 hm [((1 : ℝ), (5 : ℝ))] (by intro c hc; simp at hc; rw [hc]; norm_num)⟩

/-- C6 counterexample: decrease with percentage 0 is not literally a no-op
on the record, because lastUpdated is refreshed: at time 5 the concrete
record (whose lastUpdated is 0) changes, even though its score and
metrics do not. -/
theorem decrease_zero_noop_counterexample :
    decreaseRecord sDiff 5 0 rEighty ≠ rEighty ∧
    (decreaseRecord sDiff 5 0 rEighty).heatScore = rEighty.heatScore := by
  constructor
  · intro h
    have h5 : (decreaseRecord sDiff 5 0 rEighty).lastUpdated = rEighty.lastUpdated :=
      congrArg HeatData.lastUpdated h
    rw [decreaseRecord, if_neg (by simp [rEighty, mBase])] at h5
    simp only [rEighty] at h5
    norm_num at h5
  · rw [decreaseRecord, if_neg (by simp [rEighty, mBase])]
    simpa using decayedScore_zero sDiff rEighty.heatScore (by norm_num [rEighty])

/-- C7: favoriting sets the boost to manualBoostValue and immediately
renormalizes the score with the boost added; unfavoriting clears the
boost, leaves the accumulated score untouched, and a later increase no
longer adds any boost. -/
theorem setFavorite_toggle_effects (s : EmberSettings) (now now2 amt : ℝ) (r : HeatData) :
    ((setFavoriteRecord s now true r).metrics.isFavorite = true ∧
     (setFavoriteRecord s now true r).metrics.favoriteBoost = s.manualBoostValue ∧
     (setFavoriteRecord s now true r).heatScore =
       normalizeHeat (r.heatScore + s.manualBoostValue)) ∧
    ((setFavoriteRecord s now false r).metrics.isFavorite = false ∧
     (setFavoriteRecord s now false r).metrics.favoriteBoost = 0 ∧
     (setFavoriteRecord s now false r).heatScore = r.heatScore ∧
     (increaseRecord s now2 amt (setFavoriteRecord s now false r)).heatScore =
       normalizeHeat (r.heatScore + amt)) := by
  refine ⟨⟨by simp [setFavoriteRecord], by simp [setFavoriteRecord], by simp [setFavoriteRecord]⟩,
    ⟨by simp [setFavoriteRecord], by simp [setFavoriteRecord], by simp [setFavoriteRecord], ?_⟩⟩
  simp [increaseRecord, setFavoriteRecord]

/-- Helper: log10 is nonnegative at arguments at least 1. -/
lemma log10_nonneg {x : ℝ} (hx : 1 ≤ x) : 0 ≤ log10 x :=
  div_nonneg (Real.log_nonneg hx) (Real.log_pos (by norm_num)).le

/-- Helper: log10 is monotone on positive arguments. -/
lemma log10_le_log10 {x y : ℝ} (hx : 0 < x) (hxy : x ≤ y) : log10 x ≤ log10 y :=
  div_le_div_of_nonneg_right (Real.log_le_log hx hxy) (Real.log_pos (by norm_num)).le

/-- Helper: the normalized score is never negative. -/
lemma normalizeHeat_nonneg (x : ℝ) : 0 ≤ normalizeHeat x := by
  rw [normalizeHeat]
  split_ifs with h1 h2
  · exact le_refl 0
  · have hlog : 0 ≤ log10 (x - 100 + 1) := log10_nonneg (by linarith)
    exact le_min (by norm_num) (by nlinarith)
  · linarith

/-- Helper: the normalized score never exceeds 100. -/
lemma normalizeHeat_le_100 (x : ℝ) : normalizeHeat x ≤ 100 := by
  rw [normalizeHeat]
  split_ifs with h1 h2
  · norm_num
  · exact min_le_left _ _
  · linarith

/-- C2 (amended): for raw at least 0 the normalized value lies in [0,100]
and normalize 0 = 0; normalize is monotone non-decreasing on each branch
(below the cap threshold 100, and from 100 on), but not globally. -/
theorem normalize_range_zero_and_piecewise_monotone :
    (∀ raw : ℝ, 0 ≤ raw → 0 ≤ normalizeHeat raw ∧ normalizeHeat raw ≤ 100) ∧
    normalizeHeat 0 = 0 ∧
    (∀ a b : ℝ, a ≤ b → b < 100 → normalizeHeat a ≤ normalizeHeat b) ∧
    (∀ a b : ℝ, 100 ≤ a → a ≤ b → normalizeHeat a ≤ normalizeHeat b) := by
  refine ⟨fun raw _ => ⟨normalizeHeat_nonneg raw, normalizeHeat_le_100 raw⟩,
    by rw [normalizeHeat, if_pos (le_refl (0 : ℝ))], fun a b hab hb => ?_, fun a b ha hab => ?_⟩
  · rw [normalizeHeat, normalizeHeat]
    split_ifs <;> linarith
  · rw [normalizeHeat, normalizeHeat,
      if_neg (by linarith : ¬ a ≤ 0), if_neg (by linarith : ¬ b ≤ 0),
      if_pos ha, if_pos (by linarith : (100 : ℝ) ≤ b)]
    have hlog : log10 (a - 100 + 1) ≤ log10 (b - 100 + 1) :=
      log10_le_log10 (by linarith) (by linarith)
    exact min_le_min (le_refl 100) (by nlinarith)

/-- C2 witness: the amended statement instantiated at concrete inputs. -/
theorem normalize_range_zero_and_piecewise_monotone_witness :
    (0 ≤ normalizeHeat 3 ∧ normalizeHeat 3 ≤ 100) ∧
    normalizeHeat 1 ≤ normalizeHeat 2 ∧ normalizeHeat 100 ≤ normalizeHeat 150 :=
  ⟨normalize_range_zero_and_piecewise_monotone.1 3 (by norm_num),
   normalize_range_zero_and_piecewise_monotone.2.2.1 1 2 (by norm_num) (by norm_num),
   normalize_range_zero_and_piecewise_monotone.2.2.2 100 150 (by norm_num) (by norm_num)⟩

/-- C2 counterexample: normalize is not monotone across the cap threshold:
normalize 99 = 99 but normalize 100 = 90. -/
theorem normalize_monotone_counterexample :
    normalizeHeat 99 = 99 ∧ normalizeHeat 100 = 90 ∧
    ¬ normalizeHeat 99 ≤ normalizeHeat 100 := by
  have h99 : normalizeHeat 99 = 99 := by
    rw [normalizeHeat, if_neg (by norm_num), if_neg (by norm_num)]
  have h100 : normalizeHeat 100 = 90 := by
    rw [normalizeHeat, if_neg (by norm_num), if_pos (le_refl (100 : ℝ))]
    have : log10 ((100 : ℝ) - 100 + 1) = 0 := by
      norm_num [log10, Real.log_one]
    rw [this]
    norm_num
  exact ⟨h99, h100, by rw [h99, h100]; norm_num⟩

/-- C8: each sub-score guarded by a store-wide maximum is exactly 0 when
that maximum is 0, and every sub-score is a finite real in [0,100] for a
record whose metric is between 0 and the store-wide maximum (NaN and
Infinity do not exist in this real-number model precisely because the
zero denominators are guarded). -/
theorem subscore_degenerate_zero_and_bounded (m : HeatMetrics) (now maxA maxD maxE : ℝ) :
    calculateFrequencyScore m 0 = 0 ∧
    calculateDurationScore m 0 = 0 ∧
    calculateEditScore m 0 = 0 ∧
    (0 ≤ m.accessCount → m.accessCount ≤ maxA →
      0 ≤ calculateFrequencyScore m maxA ∧ calculateFrequencyScore m maxA ≤ 100) ∧
    (0 ≤ calculateRecencyScore now m ∧ calculateRecencyScore now m ≤ 100) ∧
    (0 ≤ calculateSuccessionScore m ∧ calculateSuccessionScore m ≤ 100) ∧
    (0 ≤ m.totalDuration → m.totalDuration ≤ maxD →
      0 ≤ calculateDurationScore m maxD ∧ calculateDurationScore m maxD ≤ 100) ∧
    (0 ≤ m.editCount → m.editCount ≤ maxE →
      0 ≤ calculateEditScore m maxE ∧ calculateEditScore m maxE ≤ 100) := by
  refine ⟨by rw [calculateFrequencyScore, if_pos rfl],
    by rw [calculateDurationScore, if_pos rfl],
    by rw [calculateEditScore, if_pos rfl],
    fun h0 hle => ?_, ?_, ?_, fun h0 hle => ?_, fun h0 hle => ?_⟩
  · rw [calculateFrequencyScore]
    split_ifs with h
    · norm_num
    · have hpos : 0 < maxA := lt_of_le_of_ne (le_trans h0 hle) (Ne.symm h)
      have hdiv : m.accessCount / maxA ≤ 1 := (div_le_one hpos).mpr hle
      constructor
      · positivity
      · nlinarith
  · exact ⟨le_max_left 0 _, max_le (by norm_num) (min_le_left _ _)⟩
  · exact ⟨le_max_left 0 _, max_le (by norm_num) (min_le_left _ _)⟩
  · rw [calculateDurationScore]
    split_ifs with h
    · norm_num
    · have hpos : 0 < maxD := lt_of_le_of_ne (le_trans h0 hle) (Ne.symm h)
      have hnum : 0 ≤ log10 (m.totalDuration + 1) := log10_nonneg (by linarith)
      have hden : 0 < log10 (maxD + 1) :=
        div_pos (Real.log_pos (by linarith)) (Real.log_pos (by norm_num))
      have hmono : log10 (m.totalDuration + 1) ≤ log10 (maxD + 1) :=
        log10_le_log10 (by linarith) (by linarith)
      have hdiv : log10 (m.totalDuration + 1) / log10 (maxD + 1) ≤ 1 :=
        (div_le_one hden).mpr hmono
      constructor
      · positivity
      · nlinarith
  · rw [calculateEditScore]
    split_ifs with h
    · norm_num
    · have hpos : 0 < maxE := lt_of_le_of_ne (le_trans h0 hle) (Ne.symm h)
      have hdiv : m.editCount / maxE ≤ 1 := (div_le_one hpos).mpr hle
      constructor
      · positivity
      · nlinarith

/-- C8 witness: the bounds instantiated at concrete data. -/
theorem subscore_degenerate_zero_and_bounded_witness :
    calculateFrequencyScore mBase 0 = 0 ∧
    (0 ≤ calculateFrequencyScore mBase 4 ∧ calculateFrequencyScore mBase 4 ≤ 100) ∧
    (0 ≤ calculateDurationScore mBase 7 ∧ calculateDurationScore mBase 7 ≤ 100) ∧
    (0 ≤ calculateEditScore mBase 9 ∧ calculateEditScore mBase 9 ≤ 100) := by
  have h := subscore_degenerate_zero_and_bounded mBase 0 4 7 9
  exact ⟨h.1,
    h.2.2.2.1 (by norm_num [mBase]) (by norm_num [mBase]),
    h.2.2.2.2.2.2.1 (by norm_num [mBase]) (by norm_num [mBase]),
    h.2.2.2.2.2.2.2 (by norm_num [mBase]) (by norm_num [mBase])⟩

/-- Helper: the score produced by one decay cycle depends only on the
previous score and favorite flag, not on the cycle's wall-clock time. -/
lemma tickRecord_heatScore (s : EmberSettings) (t : ℝ) (r : HeatData) :
    (tickRecord s t r).heatScore = tickScore s r.metrics.isFavorite r.heatScore := by
  simp only [tickRecord, tickScore, decreaseRecord]
  split_ifs <;> rfl

/-- Helper: one decay cycle never touches the metrics of a record. -/
lemma tickRecord_metrics (s : EmberSettings) (t : ℝ) (r : HeatData) :
    (tickRecord s t r).metrics = r.metrics := by
  simp only [tickRecord, decreaseRecord]
  split_ifs <;> rfl

/-- Helper: performDecay acts on the score-and-favorite view of the store
as the time-independent decayStep. -/
lemma storeSF_performDecay (s : EmberSettings) (t : ℝ) (st : Store) :
    storeSF (performDecay s t st) = decayStep s (storeSF st) := by
  funext p
  cases h : st p with
  | none => simp [storeSF, performDecay, decayStep, h]
  | some r => simp [storeSF, performDecay, decayStep, h, tickRecord_heatScore, tickRecord_metrics]

/-- Helper: a sequence of ticks iterates decayStep once per tick. -/
lemma storeSF_foldl_performDecay (s : EmberSettings) (nows : List ℝ) :
    ∀ st : Store, storeSF (nows.foldl (fun acc t => performDecay s t acc) st) =
      (decayStep s)^[nows.length] (storeSF st) := by
  induction nows with
  | nil => intro st; rfl
  | cons t ts ih =>
    intro st
    have hstep : (t :: ts).foldl (fun acc u => performDecay s u acc) st =
        ts.foldl (fun acc u => performDecay s u acc) (performDecay s t st) := rfl
    rw [hstep, ih, storeSF_performDecay, List.length_cons, Function.iterate_succ_apply]

/-- Helper: the catch-up loop iterates decayStep once per missed cycle. -/
lemma storeSF_missedDecayLoop (s : EmberSettings) (now : ℝ) :
    ∀ (k : ℕ) (st : Store),
      storeSF (missedDecayLoop s now k st) = (decayStep s)^[k] (storeSF st) := by
  intro k
  induction k with
  | zero => intro st; rfl
  | succ n ih =>
    intro st
    rw [missedDecayLoop, ih, storeSF_performDecay, Function.iterate_succ_apply]

/-- Helper: heat scores are the first component of the score-and-favorite
view. -/
lemma storeScores_eq_SF (st : Store) :
    storeScores st = fun p => (storeSF st p).map Prod.fst := by
  funext p
  cases h : st p <;> simp [storeScores, storeSF, h]

/-- C3: replaying tick k times (at arbitrary wall-clock times) leaves each
record with exactly the heat score produced by one startup catch-up call
that applies k missed cycles to the same initial store. -/
theorem tick_replay_eq_catchup (s : EmberSettings) (st : Store) (k : ℕ) (nows : List ℝ)
    (now : ℝ) (h : nows.length = k) :
    storeScores (nows.foldl (fun acc t => performDecay s t acc) st) =
      storeScores (missedDecayLoop s now k st) := by
  rw [storeScores_eq_SF, storeScores_eq_SF, storeSF_foldl_performDecay,
    storeSF_missedDecayLoop, h]

/-- C3 witness: one tick versus a catch-up of one missed cycle on the
concrete one-record store. -/
theorem tick_replay_eq_catchup_witness :
    List.length [(3 : ℝ)] = 1 ∧
    storeScores ([(3 : ℝ)].foldl (fun acc t => performDecay sDiff t acc) stOne) =
      storeScores (missedDecayLoop sDiff 9 1 stOne) :=
  ⟨rfl, tick_replay_eq_catchup sDiff stOne 1 [(3 : ℝ)] 9 rfl⟩

/-- C10: resetting an existing record zeroes the score, access count, edit
count, total duration and succession count, refreshes lastUpdated, keeps
the favorite flag, first-tracked, last-accessed, last-edited,
session-start and succession timestamps, clears the boost only for
non-favorites, leaves every other path untouched, and is a no-op for an
absent identifier. -/
theorem resetFileHeat_resets_and_preserves (now : ℝ) (path : String) (st : Store)
    (r : HeatData) :
    (st path = some r →
      Option.map HeatData.heatScore ((resetFileHeat now path st) path) = some 0 ∧
      Option.map (fun d => d.metrics.accessCount) ((resetFileHeat now path st) path) = some 0 ∧
      Option.map (fun d => d.metrics.editCount) ((resetFileHeat now path st) path) = some 0 ∧
      Option.map (fun d => d.metrics.totalDuration) ((resetFileHeat now path st) path) = some 0 ∧
      Option.map (fun d => d.metrics.successionCount) ((resetFileHeat now path st) path) =
        some 0 ∧
      Option.map HeatData.lastUpdated ((resetFileHeat now path st) path) = some now ∧
      Option.map (fun d => d.metrics.isFavorite) ((resetFileHeat now path st) path) =
        some r.metrics.isFavorite ∧
      Option.map HeatData.firstTracked ((resetFileHeat now path st) path) =
        some r.firstTracked ∧
      Option.map (fun d => d.metrics.lastAccessed) ((resetFileHeat now path st) path) =
        some r.metrics.lastAccessed ∧
      Option.map (fun d => d.metrics.lastEdited) ((resetFileHeat now path st) path) =
        some r.metrics.lastEdited ∧
      Option.map (fun d => d.metrics.sessionStart) ((resetFileHeat now path st) path) =
        some r.metrics.sessionStart ∧
      Option.map (fun d => d.metrics.successionTimestamp) ((resetFileHeat now path st) path) =
        some r.metrics.successionTimestamp ∧
      Option.map (fun d => d.metrics.favoriteBoost) ((resetFileHeat now path st) path) =
        some (if r.metrics.isFavorite then r.metrics.favoriteBoost else 0) ∧
      (∀ q, q ≠ path → (resetFileHeat now path st) q = st q)) ∧
    (st path = none → resetFileHeat now path st = st) := by
  constructor
  · intro h
    unfold resetFileHeat
    rw [h]
    refine ⟨?_, ?_, ?_, ?_, ?_, ?_, ?_, ?_, ?_, ?_, ?_, ?_, ?_, ?_⟩ <;>
      first
      | (intro q hq; simp [Store.update, hq])
      | simp [Store.update]
  · intro h
    unfold resetFileHeat
    rw [h]

/-- C10 witness: the reset effects instantiated on the concrete store,
including the no-op branch at the absent path. -/
theorem resetFileHeat_resets_and_preserves_witness :
    (Option.map HeatData.heatScore ((resetFileHeat 4 pA stOne) pA) = some 0 ∧
      Option.map HeatData.lastUpdated ((resetFileHeat 4 pA stOne) pA) = some 4 ∧
      Option.map (fun d => d.metrics.isFavorite) ((resetFileHeat 4 pA stOne) pA) =
        some rEighty.metrics.isFavorite) ∧
    resetFileHeat 4 pB stOne = stOne := by
  have h1 := (resetFileHeat_resets_and_preserves 4 pA stOne rEighty).1 (by simp [stOne])
  have h2 := (resetFileHeat_resets_and_preserves 4 pB stOne rEighty).2
    (by simp [stOne, pA, pB])
  exact ⟨⟨h1.1, h1.2.2.2.2.2.1, h1.2.2.2.2.2.2.1⟩, h2⟩

/-- Helper: effect of onFileAccess on a record in the quick-return case:
succession is incremented and stamped, and the score passes through two
increase calls (quick-return bonus, then file-open increment), each of
which re-adds the favorite boost. -/
lemma onFileAccessRecord_quick (s : EmberSettings) (lf : Option String) (path : String)
    (now : ℝ) (r : HeatData) (hprev : lf = some path)
    (hgap : now - r.metrics.lastAccessed < s.heatIncrements.quickReturnWindow) :
    (onFileAccessRecord s lf path now r).metrics.successionCount =
      r.metrics.successionCount + 1 ∧
    (onFileAccessRecord s lf path now r).metrics.successionTimestamp = now ∧
    (onFileAccessRecord s lf path now r).heatScore =
      normalizeHeat (normalizeHeat (r.heatScore + s.heatIncrements.quickReturn +
        (if r.metrics.isFavorite = true then r.metrics.favoriteBoost else 0)) +
        s.heatIncrements.fileOpen +
        (if r.metrics.isFavorite = true then r.metrics.favoriteBoost else 0)) := by
  simp only [onFileAccessRecord, increaseRecord]
  rw [if_pos ⟨hprev, hgap⟩]
  by_cases hf : r.metrics.isFavorite = true <;> simp [hf]

/-- Helper: effect of onFileAccess on a record when the gap since the last
access exceeds the quick-return window: succession resets to 0. -/
lemma onFileAccessRecord_stale (s : EmberSettings) (lf : Option String) (path : String)
    (now : ℝ) (r : HeatData)
    (hgap : now - r.metrics.lastAccessed > s.heatIncrements.quickReturnWindow) :
    (onFileAccessRecord s lf path now r).metrics.successionCount = 0 := by
  simp only [onFileAccessRecord, increaseRecord]
  rw [if_neg (by rintro ⟨-, hlt⟩; linarith), if_pos hgap]

/-- Helper: after onFileAccess the accessed path holds the transformed
record. -/
lemma onFileAccess_store_at (s : EmberSettings) (ts : TrackerState) (id : String)
    (now : ℝ) (r : HeatData) (hr : ts.store id = some r) :
    (onFileAccess s now id ts).store id =
      some (onFileAccessRecord s ts.lastAccessedFile id now r) := by
  simp [onFileAccess, Store.update, getOrCreate, hr]

/-- C5: on an access to a tracked record, if the previously accessed file
is the same identifier and the gap since its last access is below the
quick-return window, successionCount is incremented, successionTimestamp
is stamped with now, and the quick-return bonus heat is granted (through
a nested increase) before the file-open increment; if instead the gap
exceeds the window, successionCount resets to 0. -/
theorem onFileAccess_succession_update (s : EmberSettings) (ts : TrackerState) (id : String)
    (now : ℝ) (r : HeatData) (hr : ts.store id = some r) :
    (ts.lastAccessedFile = some id ∧
        now - r.metrics.lastAccessed < s.heatIncrements.quickReturnWindow →
      Option.map (fun d => d.metrics.successionCount) ((onFileAccess s now id ts).store id) =
        some (r.metrics.successionCount + 1) ∧
      Option.map (fun d => d.metrics.successionTimestamp)
        ((onFileAccess s now id ts).store id) = some now ∧
      Option.map HeatData.heatScore ((onFileAccess s now id ts).store id) =
        some (normalizeHeat (normalizeHeat (r.heatScore + s.heatIncrements.quickReturn +
          (if r.metrics.isFavorite = true then r.metrics.favoriteBoost else 0)) +
          s.heatIncrements.fileOpen +
          (if r.metrics.isFavorite = true then r.metrics.favoriteBoost else 0)))) ∧
    (now - r.metrics.lastAccessed > s.heatIncrements.quickReturnWindow →
      Option.map (fun d => d.metrics.successionCount) ((onFileAccess s now id ts).store id) =
        some 0) := by
  constructor
  · rintro ⟨hprev, hgap⟩
    have h := onFileAccessRecord_quick s ts.lastAccessedFile id now r hprev hgap
    rw [onFileAccess_store_at s ts id now r hr]
    simp [h.1, h.2.1, h.2.2]
  · intro hgap
    have h := onFileAccessRecord_stale s ts.lastAccessedFile id now r hgap
    rw [onFileAccess_store_at s ts id now r hr]
    simp [h]

/-- C5 witness: a quick return and a stale return on concrete tracker
states. -/
theorem onFileAccess_succession_update_witness :
    (Option.map (fun d => d.metrics.successionCount)
        ((onFileAccess sDiff 1000 pA tsBase).store pA) =
      some (rEighty.metrics.successionCount + 1) ∧
      Option.map (fun d => d.metrics.successionTimestamp)
        ((onFileAccess sDiff 1000 pA tsBase).store pA) = some 1000) ∧
    Option.map (fun d => d.metrics.successionCount)
        ((onFileAccess sDiff 400000 pA tsBase).store pA) = some 0 := by
  have hq := (onFileAccess_succession_update sDiff tsBase pA 1000 rEighty
      (by simp [tsBase, stOne])).1
    ⟨rfl, by norm_num [rEighty, mBase, sDiff]⟩
  have hs := (onFileAccess_succession_update sDiff tsBase pA 400000 rEighty
      (by simp [tsBase, stOne])).2
    (by norm_num [rEighty, mBase, sDiff])
  exact ⟨⟨hq.1, hq.2.1⟩, hs⟩

/-- C9: for a favorited record, a single quick-return access applies the
favorite boost twice: once in the nested quick-return increase and once in
the outer file-open increase, so the stored score is the double
normalization with the boost added at both stages. -/
theorem quick_return_grants_boost_twice (s : EmberSettings) (ts : TrackerState) (id : String)
    (now : ℝ) (r : HeatData) (hr : ts.store id = some r)
    (hfav : r.metrics.isFavorite = true) (hprev : ts.lastAccessedFile = some id)
    (hgap : now - r.metrics.lastAccessed < s.heatIncrements.quickReturnWindow) :
    Option.map HeatData.heatScore ((onFileAccess s now id ts).store id) =
      some (normalizeHeat (normalizeHeat (r.heatScore + s.heatIncrements.quickReturn +
        r.metrics.favoriteBoost) + s.heatIncrements.fileOpen + r.metrics.favoriteBoost)) := by
  have h := (onFileAccessRecord_quick s ts.lastAccessedFile id now r hprev hgap).2.2
  rw [onFileAccess_store_at s ts id now r hr]
  simp [h, hfav]

/-- C9 witness: the double boost on a concrete favorited record. -/
theorem quick_return_grants_boost_twice_witness :
    Option.map HeatData.heatScore ((onFileAccess sDiff 1000 pA tsFav).store pA) =
      some (normalizeHeat (normalizeHeat (rFav.heatScore + sDiff.heatIncrements.quickReturn +
        rFav.metrics.favoriteBoost) + sDiff.heatIncrements.fileOpen +
        rFav.metrics.favoriteBoost)) :=
  quick_return_grants_boost_twice sDiff tsFav pA 1000 rFav (by simp [tsFav]) rfl rfl
    (by norm_num [rFav, mFav, mBase, sDiff])

/-- Helper: two-sided bound for exp(-1/2), obtained by squaring. -/
lemma exp_neg_half_bounds :
    (0.6065306 : ℝ) < Real.exp (-(1/2)) ∧ Real.exp (-(1/2)) < 0.6065307 := by
  have hx : (0:ℝ) < Real.exp (-(1/2)) := Real.exp_pos _
  have hsq : Real.exp (-(1/2)) * Real.exp (-(1/2)) = Real.exp (-1) := by
    rw [← Real.exp_add]; norm_num
  have hlo : (0.36787944116 : ℝ) < Real.exp (-1) := Real.exp_neg_one_gt_d9
  have hhi : Real.exp (-1) < 0.3678794412 := Real.exp_neg_one_lt_d9
  constructor
  · nlinarith [hsq, hlo, hx]
  · nlinarith [hsq, hhi, hx]

/-- Helper: two-sided bound for log(3/2) from the Taylor series of
log(1-x) at x = 1/3 with 12 terms. -/
lemma log_three_halves_bounds :
    (0.405464 : ℝ) ≤ Real.log (3/2) ∧ Real.log (3/2) ≤ 0.405466 := by
  have habs : |(1/3 : ℝ)| < 1 := by rw [abs_of_pos] <;> norm_num
  have z := Real.abs_log_sub_add_sum_range_le habs 12
  rw [abs_of_pos (show (0:ℝ) < 1/3 by norm_num)] at z
  have hlog : Real.log (1 - 1/3) = - Real.log (3/2) := by
    rw [show (1 : ℝ) - 1/3 = (3/2)⁻¹ by norm_num, Real.log_inv]
  rw [hlog, ← sub_eq_add_neg] at z
  simp only [Finset.sum_range_succ, Finset.sum_range_zero] at z
  norm_num at z
  have hz := abs_le.mp z
  constructor <;> linarith [hz.1, hz.2]

/-- Helper: two-sided bound for log(5/4) from the Taylor series of
log(1-x) at x = 1/5 with 10 terms. -/
lemma log_five_fourths_bounds :
    (0.2231435 : ℝ) ≤ Real.log (5/4) ∧ Real.log (5/4) ≤ 0.2231436 := by
  have habs : |(1/5 : ℝ)| < 1 := by rw [abs_of_pos] <;> norm_num
  have z := Real.abs_log_sub_add_sum_range_le habs 10
  rw [abs_of_pos (show (0:ℝ) < 1/5 by norm_num)] at z
  have hlog : Real.log (1 - 1/5) = - Real.log (5/4) := by
    rw [show (1 : ℝ) - 1/5 = (5/4)⁻¹ by norm_num, Real.log_inv]
  rw [hlog, ← sub_eq_add_neg] at z
  simp only [Finset.sum_range_succ, Finset.sum_range_zero] at z
  norm_num at z
  have hz := abs_le.mp z
  constructor <;> linarith [hz.1, hz.2]

/-- Helper: two-sided bound for log 600001 via the factorization
600001 = 2^17 * (3/2) * (5/4)^5 * (600001/600000). -/
lemma log_600001_bounds :
    (13.304683 : ℝ) ≤ Real.log 600001 ∧ Real.log 600001 ≤ 13.304688 := by
  have h2lo := Real.log_two_gt_d9
  have h2hi := Real.log_two_lt_d9
  have h32 := log_three_halves_bounds
  have h54 := log_five_fourths_bounds
  have heps_lo : (0:ℝ) < Real.log (600001/600000) := Real.log_pos (by norm_num)
  have heps_hi : Real.log (600001/600000) ≤ 1/600000 := by
    have h := Real.log_le_sub_one_of_pos (show (0:ℝ) < 600001/600000 by norm_num)
    linarith
  have hdecomp : Real.log 600001 =
      17 * Real.log 2 + Real.log (3/2) + 5 * Real.log (5/4) + Real.log (600001/600000) := by
    rw [show (600001 : ℝ) = 2^17 * (3/2) * ((5/4)^5 * (600001/600000)) by norm_num,
      Real.log_mul (by norm_num) (by norm_num), Real.log_mul (by norm_num) (by norm_num),
      Real.log_mul (by norm_num) (by norm_num), Real.log_pow, Real.log_pow]
    push_cast
    ring_nf
  rw [hdecomp]
  constructor <;> linarith [h32.1, h32.2, h54.1, h54.2]

/-- Helper: two-sided bound for log 6000001 via the factorization
6000001 = 2^20 * (3/2) * (5/4)^6 * (6000001/6000000). -/
lemma log_6000001_bounds :
    (15.607268 : ℝ) ≤ Real.log 6000001 ∧ Real.log 6000001 ≤ 15.607272 := by
  have h2lo := Real.log_two_gt_d9
  have h2hi := Real.log_two_lt_d9
  have h32 := log_three_halves_bounds
  have h54 := log_five_fourths_bounds
  have heps_lo : (0:ℝ) < Real.log (6000001/6000000) := Real.log_pos (by norm_num)
  have heps_hi : Real.log (6000001/6000000) ≤ 1/6000000 := by
    have h := Real.log_le_sub_one_of_pos (show (0:ℝ) < 6000001/6000000 by norm_num)
    linarith
  have hdecomp : Real.log 6000001 =
      20 * Real.log 2 + Real.log (3/2) + 6 * Real.log (5/4) + Real.log (6000001/6000000) := by
    rw [show (6000001 : ℝ) = 2^20 * (3/2) * ((5/4)^6 * (6000001/6000000)) by norm_num,
      Real.log_mul (by norm_num) (by norm_num), Real.log_mul (by norm_num) (by norm_num),
      Real.log_mul (by norm_num) (by norm_num), Real.log_pow, Real.log_pow]
    push_cast
    ring_nf
  rw [hdecomp]
  constructor <;> linarith [h32.1, h32.2, h54.1, h54.2]

/-- Helper: the frequency sub-score of the worked example is exactly 50. -/
lemma frequencyScore_C4 : calculateFrequencyScore mC4 20 = 50 := by
  rw [calculateFrequencyScore, if_neg (by norm_num)]
  norm_num [mC4]

/-- Helper: the edit sub-score of the worked example is exactly 20. -/
lemma editScore_C4 : calculateEditScore mC4 10 = 20 := by
  rw [calculateEditScore, if_neg (by norm_num)]
  norm_num [mC4]

/-- Helper: the recency sub-score of the worked example is 100·exp(-1/2),
bounded between 60.653 and 60.654. -/
lemma recencyScore_C4_bounds :
    (60.653 : ℝ) < calculateRecencyScore nowC4 mC4 ∧
    calculateRecencyScore nowC4 mC4 < 60.654 := by
  have hx := exp_neg_half_bounds
  have heq : calculateRecencyScore nowC4 mC4 = 100 * Real.exp (-(1/2)) := by
    simp only [calculateRecencyScore, nowC4, mC4]
    rw [show -(((302400000 : ℝ) - 0) / (1000 * 60 * 60 * 24)) / 7 = -(1/2) by norm_num]
    rw [min_eq_right (by nlinarith [hx.2]), max_eq_right (by nlinarith [hx.1])]
  rw [heq]
  constructor <;> nlinarith [hx.1, hx.2]

/-- Helper: the succession sub-score of the worked example is
100·(1 - exp(-1)), bounded between 63.212 and 63.2121. -/
lemma successionScore_C4_bounds :
    (63.212 : ℝ) < calculateSuccessionScore mC4 ∧ calculateSuccessionScore mC4 < 63.2121 := by
  have hlo : (0.36787944116 : ℝ) < Real.exp (-1) := Real.exp_neg_one_gt_d9
  have hhi : Real.exp (-1) < 0.3678794412 := Real.exp_neg_one_lt_d9
  have heq : calculateSuccessionScore mC4 = 100 * (1 - Real.exp (-1)) := by
    simp only [calculateSuccessionScore, mC4]
    rw [show -(3 : ℝ) / 3 = -1 by norm_num]
    rw [min_eq_right (by nlinarith), max_eq_right (by nlinarith)]
  rw [heq]
  constructor <;> nlinarith

/-- Helper: the duration sub-score of the worked example is
100·log(600001)/log(6000001), bounded between 85.24 and 85.26. -/
lemma durationScore_C4_bounds :
    (85.24 : ℝ) < calculateDurationScore mC4 6000000 ∧
    calculateDurationScore mC4 6000000 < 85.26 := by
  have hA := log_600001_bounds
  have hB := log_6000001_bounds
  have hl10 : (0:ℝ) < Real.log 10 := Real.log_pos (by norm_num)
  have hLb : (0:ℝ) < Real.log 6000001 := by linarith [hB.1]
  have heq : calculateDurationScore mC4 6000000 =
      Real.log 600001 / Real.log 6000001 * 100 := by
    rw [calculateDurationScore, if_neg (by norm_num)]
    rw [show mC4.totalDuration + 1 = (600001 : ℝ) by norm_num [mC4],
      show (6000000 : ℝ) + 1 = 6000001 by norm_num]
    unfold log10
    rw [div_div_div_comm, div_self (ne_of_gt hl10), div_one]
  rw [heq, div_mul_eq_mul_div]
  constructor
  · rw [lt_div_iff₀ hLb]
    nlinarith [hA.1, hB.2]
  · rw [div_lt_iff₀ hLb]
    nlinarith [hA.2, hB.1]

/-- Helper: the composite score of the worked example is bounded between
59.36 and 59.38. -/
lemma compositeScore_C4_bounds :
    (59.36 : ℝ) < calculateCompositeScore wDefault nowC4 mC4 20 6000000 10 ∧
    calculateCompositeScore wDefault nowC4 mC4 20 6000000 10 < 59.38 := by
  have hr := recencyScore_C4_bounds
  have hs := successionScore_C4_bounds
  have hd := durationScore_C4_bounds
  have heq : calculateCompositeScore wDefault nowC4 mC4 20 6000000 10 =
      (50 * 30 + calculateRecencyScore nowC4 mC4 * 40 + calculateSuccessionScore mC4 * 10 +
        calculateDurationScore mC4 6000000 * 15 + 20 * 5) / 100 := by
    rw [calculateCompositeScore, compositeOf, frequencyScore_C4, editScore_C4]
    simp only [wDefault]
    rw [min_eq_right (by nlinarith [hr.2, hs.2, hd.2]),
      max_eq_right (by nlinarith [hr.1, hs.1, hd.1])]
  rw [heq]
  constructor <;> nlinarith [hr.1, hr.2, hs.1, hs.2, hd.1, hd.2]

/-- C4 (amended): in the worked example the frequency and edit sub-scores
are exactly 50 and 20, recency is within 0.01 of 60.65, succession within
0.01 of 63.21, but the duration sub-score is within 0.01 of 85.25 (not
84.2), and the composite is within 0.01 of 59.37 (not 59.21). -/
theorem composite_worked_example_amended :
    calculateFrequencyScore mC4 20 = 50 ∧
    |calculateRecencyScore nowC4 mC4 - 60.65| < 0.01 ∧
    |calculateSuccessionScore mC4 - 63.21| < 0.01 ∧
    |calculateDurationScore mC4 6000000 - 85.25| < 0.01 ∧
    calculateEditScore mC4 10 = 20 ∧
    |calculateCompositeScore wDefault nowC4 mC4 20 6000000 10 - 59.37| < 0.01 := by
  have hr := recencyScore_C4_bounds
  have hs := successionScore_C4_bounds
  have hd := durationScore_C4_bounds
  have hc := compositeScore_C4_bounds
  refine ⟨frequencyScore_C4, abs_lt.mpr ⟨by linarith [hr.1], by linarith [hr.2]⟩,
    abs_lt.mpr ⟨by linarith [hs.1], by linarith [hs.2]⟩,
    abs_lt.mpr ⟨by linarith [hd.1], by linarith [hd.2]⟩,
    editScore_C4,
    abs_lt.mpr ⟨by linarith [hc.1], by linarith [hc.2]⟩⟩

/-- C4 counterexample: in the worked example the duration sub-score
exceeds 84.7, so it is not close to the claimed 84.2 (off by more than
0.5), and the composite exceeds 59.31, so it is not close to the claimed
59.21 (off by more than 0.1). -/
theorem composite_worked_example_counterexample :
    (84.2 : ℝ) + 1/2 < calculateDurationScore mC4 6000000 ∧
    (59.21 : ℝ) + 1/10 < calculateCompositeScore wDefault nowC4 mC4 20 6000000 10 := by
  have hd := durationScore_C4_bounds
  have hc := compositeScore_C4_bounds
  constructor <;> linarith [hd.1, hc.1]
